import Mathlib

set_option maxRecDepth 10000

/-!
Verification development for the study-backend chat subsystem.

Shallow embedding of the chat routes (src/routes/chat.js), the message
schema (the mongoose `messageSchema`) and the socket presence logic
(src/server.js).

Modelling conventions:
* JavaScript strings that are inspected character by character
  (message content, which is trimmed and length-checked) are modelled as
  `List Char`; strings only compared for equality (ids, names, roles,
  emoji) are Lean `String`s.
* Timestamps (`Date.now()`, `createdAt`, ...) are integer milliseconds.
* The MongoDB message collection is a `List Message`; `findById` is
  `List.find?` on the id, a `save` of an edited document replaces the
  document with that id.
* `parseInt(q) || d` is modelled on `Option Int`: `none` stands for an
  absent parameter and for one that does not parse (`parseInt` gives
  `NaN`, which is falsy); `some 0` is falsy as well and also defaults.
* Route handlers that end in `res.status(s).json(...)` are total
  functions into `HttpResult`, carrying the HTTP status; an error result
  carries no store, reflecting that the handlers return before any
  `save()` call on the failure paths.
* MongoDB's `sort({createdAt: -1})` is modelled by an insertion sort on
  `createdAt`, newest first (the relative order of equal timestamps is
  unspecified in the store; the model fixes a stable order).
* `listMessages` is the handler's successful query path, defined for a
  non-negative `skip`; `listMessagesRoute` adds the store's error path:
  MongoDB rejects a negative `skip` value, the `await` throws, and the
  handler's catch block answers 500 "Server error".  A negative `limit`
  (which can reach the store only together with a non-negative skip,
  e.g. at page 1) is treated by MongoDB as its absolute value with a
  single batch; the model clamps it to `0` instead, and no theorem
  evaluates the query at a negative limit.
-/

namespace StudyBackend

/-- The subset of JavaScript `String.prototype.trim` whitespace that can
occur in chat content: spaces, tabs and line separators. -/
def isJsWhitespace (c : Char) : Bool :=
  c == ' ' || c == '\t' || c == '\n' || c == '\r' || c == '\x0b' || c == '\x0c'

/-- JavaScript `content.trim()` on a string modelled as a `List Char`. -/
def jsTrim (s : List Char) : List Char :=
  ((s.dropWhile isJsWhitespace).reverse.dropWhile isJsWhitespace).reverse

/-- `parseInt(q) || d`: an absent or non-numeric parameter (`none`, since
`NaN` is falsy) and the value `0` (falsy) give the default `d`; any other
parsed integer, including a negative one, is used as is. -/
def jsOrDefault (d : Int) : Option Int → Int
  | none => d
  | some n => if n = 0 then d else n

/-- `Math.ceil(a / b)` for integer `a`, `b` with `b ≠ 0` (the ceiling of
the exact quotient, via `⌈x⌉ = -⌊-x⌋` and flooring division). -/
def mathCeilDiv (a b : Int) : Int := -((-a).fdiv b)

/-- One entry of `messageSchema.reactions`: `{user, emoji}`. -/
structure Reaction where
  user : String
  emoji : String
deriving DecidableEq

/-- A document of the `Message` collection (`messageSchema` plus the
`timestamps` option's `createdAt`). -/
structure Message where
  id : Nat
  content : List Char
  user : String
  userName : String
  userRole : String
  isEdited : Bool
  editedAt : Option Int
  reactions : List Reaction
  replyTo : Option Nat
  createdAt : Int
deriving DecidableEq

/-- Result of a route handler: `ok status value` for a success JSON
response, `err status message` for `res.status(status).json({message})`. -/
inductive HttpResult (α : Type) where
  | ok (status : Nat) (value : α)
  | err (status : Nat) (message : String)
deriving DecidableEq

def HttpResult.isOk {α : Type} : HttpResult α → Bool
  | .ok _ _ => true
  | .err _ _ => false

def HttpResult.statusOf {α : Type} : HttpResult α → Nat
  | .ok s _ => s
  | .err s _ => s

/-- `Message.findById` on the modelled collection. -/
def findById (store : List Message) (messageId : Nat) : Option Message :=
  store.find? (fun m => m.id == messageId)

/-- `message.save()` on an existing document: replace the document with
that id. -/
def updateById (store : List Message) (messageId : Nat) (m : Message) :
    List Message :=
  store.map (fun x => if x.id == messageId then m else x)

/-- Insert a message into a list already sorted newest-first, keeping it
sorted (helper for the modelled `sort({createdAt: -1})`). -/
def insertDesc (m : Message) : List Message → List Message
  | [] => [m]
  | x :: xs =>
    if m.createdAt ≤ x.createdAt then x :: insertDesc m xs
    else m :: x :: xs

/-- `sort({createdAt: -1})`: newest first. -/
def sortByCreatedAtDesc : List Message → List Message
  | [] => []
  | m :: ms => insertDesc m (sortByCreatedAtDesc ms)

/-- 24 hours in milliseconds (`24 * 60 * 60 * 1000`). -/
def dayMs : Int := 86400000

/-- 15 minutes in milliseconds (`15 * 60 * 1000`). -/
def quarterHourMs : Int := 900000

/-- The 24-hour query filter `createdAt: { $gte: twentyFourHoursAgo }`. -/
def inWindow (now : Int) (m : Message) : Bool :=
  decide (now - dayMs ≤ m.createdAt)

structure Pagination where
  currentPage : Int
  totalPages : Int
  totalMessages : Nat
  hasNext : Bool
  hasPrev : Bool
deriving DecidableEq

structure ListResponse where
  messages : List Message
  pagination : Pagination
deriving DecidableEq

/-- `GET /messages` (src/routes/chat.js, `router.get('/messages')`):
defaulted page/limit, `skip = (page-1)*limit`, 24-hour window filter,
newest-first sort, skip/limit, reverse to oldest-first, and the
pagination summary. -/
def listMessages (store : List Message) (now : Int)
    (pageQ limitQ : Option Int) : ListResponse :=
  let page := jsOrDefault 1 pageQ
  let limit := jsOrDefault 50 limitQ
  let skip := (page - 1) * limit
  let windowed := store.filter (inWindow now)
  let slice := ((sortByCreatedAtDesc windowed).drop skip.toNat).take limit.toNat
  let totalMessages := windowed.length
  let totalPages := mathCeilDiv (Int.ofNat totalMessages) limit
  { messages := slice.reverse
    pagination :=
      { currentPage := page
        totalPages := totalPages
        totalMessages := totalMessages
        hasNext := decide (page < totalPages)
        hasPrev := decide (1 < page) } }

/-- `GET /messages` at the route level, adding the store's error path to
`listMessages`: a negative `skip` (from a negative page, or a page above
1 with a negative limit) is rejected by MongoDB ("Skip value must be
non-negative"), the `await` throws, and the handler's catch block
answers `res.status(500).json({message: 'Server error'})`
(src/routes/chat.js, lines 40-43); with a non-negative skip the query
succeeds and the handler answers the `listMessages` response. -/
def listMessagesRoute (store : List Message) (now : Int)
    (pageQ limitQ : Option Int) : HttpResult ListResponse :=
  let page := jsOrDefault 1 pageQ
  let limit := jsOrDefault 50 limitQ
  if (page - 1) * limit < 0 then .err 500 "Server error"
  else .ok 200 (listMessages store now pageQ limitQ)

/-- `POST /messages` (src/routes/chat.js, `router.post('/messages')`):
content required and non-blank, raw length at most 1000, optional
`replyTo` that must resolve; on success persists the trimmed message and
answers 201. -/
def sendMessage (store : List Message) (userId userName userRole : String)
    (now : Int) (newId : Nat) (content : List Char) (replyTo : Option Nat) :
    HttpResult (List Message × Message) :=
  if content.isEmpty || (jsTrim content).length == 0 then
    .err 400 "Message content is required"
  else if content.length > 1000 then
    .err 400 "Message too long (max 1000 characters)"
  else
    let mkMsg : Option Nat → Message := fun r =>
      { id := newId
        content := jsTrim content
        user := userId
        userName := userName
        userRole := userRole
        isEdited := false
        editedAt := none
        reactions := []
        replyTo := r
        createdAt := now }
    match replyTo with
    | some parentId =>
      match findById store parentId with
      | none => .err 400 "Reply-to message not found"
      | some _ => .ok 201 (store ++ [mkMsg (some parentId)], mkMsg (some parentId))
    | none => .ok 201 (store ++ [mkMsg none], mkMsg none)

/-- `PUT /messages/:id` (src/routes/chat.js, `router.put('/messages/:id')`):
content validation first, then existence, then ownership/admin, then the
15-minute window for non-admins, then the edit itself. -/
def editMessage (store : List Message) (requesterId requesterRole : String)
    (now : Int) (messageId : Nat) (content : List Char) :
    HttpResult (List Message × Message) :=
  if content.isEmpty || (jsTrim content).length == 0 then
    .err 400 "Message content is required"
  else if content.length > 1000 then
    .err 400 "Message too long (max 1000 characters)"
  else
    match findById store messageId with
    | none => .err 404 "Message not found"
    | some message =>
      if message.user ≠ requesterId ∧ requesterRole ≠ "admin" then
        .err 403 "Not authorized to edit this message"
      else if message.createdAt < now - quarterHourMs ∧ requesterRole ≠ "admin" then
        .err 403 "Cannot edit messages older than 15 minutes"
      else
        let edited := { message with
          content := jsTrim content
          isEdited := true
          editedAt := some now }
        .ok 200 (updateById store messageId edited, edited)

/-! ### Presence (src/server.js) -/

/-- A value of the `onlineUsers` map: `{id, name, role, socketId}`. -/
structure PresenceEntry where
  id : String
  name : String
  role : String
  socketId : String
deriving DecidableEq

/-- One `{id, name, role}` item of an `onlineUsersUpdate` payload. -/
structure OnlineUser where
  id : String
  name : String
  role : String
deriving DecidableEq

/-- Payload shape of `onlineUsersUpdate` and of `GET /online-users`. -/
structure PresenceSummary where
  count : Nat
  users : List OnlineUser
deriving DecidableEq

/-- The `onlineUsers` JavaScript `Map`, keyed by user id, in insertion
order. -/
abbrev Registry : Type := List (String × PresenceEntry)

/-- JavaScript `Map.prototype.set`: overwrite in place if the key is
present, else append. -/
def mapSet (k : String) (v : PresenceEntry) : Registry → Registry
  | [] => [(k, v)]
  | (k0, v0) :: rest =>
    if k0 == k then (k, v) :: rest else (k0, v0) :: mapSet k v rest

/-- JavaScript `Map.prototype.delete` (keys are unique, so removing every
entry with the key is the same as removing the one entry). -/
def mapDelete (k : String) (reg : Registry) : Registry :=
  reg.filter (fun p => p.1 ≠ k)

/-- JavaScript `Map.prototype.get`, restricted to presence lookups. -/
def mapGet (k : String) (reg : Registry) : Option PresenceEntry :=
  (reg.find? (fun p => p.1 == k)).map (fun p => p.2)

/-- The `onlineUsersUpdate` broadcast payload built from the registry:
`count` plus the `{id, name, role}` projection of the values. -/
def presenceSnapshot (reg : Registry) : PresenceSummary :=
  { count := reg.length
    users := reg.map (fun p => { id := p.2.id, name := p.2.name, role := p.2.role }) }

/-- A presence-relevant socket event: an authenticated connection (which
does `onlineUsers.set(socket.userId, {...})`) or a disconnect (which does
`onlineUsers.delete(socket.userId)` for the disconnecting socket's user,
with no check that this socket is still the registered one). -/
inductive SocketEvent where
  | connected (userId name role socketId : String)
  | disconnected (userId : String)

/-- The registry transition of one socket event (src/server.js,
`io.on('connection')` and `socket.on('disconnect')`). -/
def stepPresence (reg : Registry) : SocketEvent → Registry
  | .connected userId name role socketId =>
      mapSet userId { id := userId, name := name, role := role, socketId := socketId } reg
  | .disconnected userId => mapDelete userId reg

/-- Run a sequence of socket events against the registry. -/
def runEvents (reg : Registry) (evs : List SocketEvent) : Registry :=
  evs.foldl stepPresence reg

/-- `GET /online-users` (src/routes/chat.js): the handler ignores the
registry and answers the constant `{count: 0, users: []}` (the route is a
placeholder for the socket integration). -/
def onlineUsersRoute (_reg : Registry) : PresenceSummary :=
  { count := 0, users := [] }

/-- Does this reaction belong to `userId` with this `emoji`?  The
predicate of the `find`/`filter` pair in the reactions route. -/
def matchesReaction (userId emoji : String) (r : Reaction) : Bool :=
  r.user == userId && r.emoji == emoji

/-- The reaction-list update of `POST /messages/:id/reactions`: if the
requester already has this emoji reaction remove it, otherwise append
it. -/
def toggledReactions (userId emoji : String) (reactions : List Reaction) :
    List Reaction :=
  if reactions.any (matchesReaction userId emoji) then
    reactions.filter (fun r => !(matchesReaction userId emoji r))
  else
    reactions ++ [{ user := userId, emoji := emoji }]

/-- `POST /messages/:id/reactions` (src/routes/chat.js): emoji required,
message must exist, then toggle the requester's reaction and save. -/
def toggleReaction (store : List Message) (userId : String)
    (messageId : Nat) (emoji : String) :
    HttpResult (List Message × Message) :=
  if emoji == "" then
    .err 400 "Emoji is required"
  else
    match findById store messageId with
    | none => .err 404 "Message not found"
    | some message =>
      let updated := { message with
        reactions := toggledReactions userId emoji message.reactions }
      .ok 200 (updateById store messageId updated, updated)

/-! ### A concrete 120-message window for the pagination scenario -/

/-- The `i`-th demo message: message `i` was created `(i+1)` seconds
before `demoNow`, so smaller ids are newer and all 120 fall inside the
24-hour window. -/
def demoMessage (i : Nat) : Message :=
  { id := i
    content := ['m']
    user := "author"
    userName := "Author"
    userRole := "user"
    isEdited := false
    editedAt := none
    reactions := []
    replyTo := none
    createdAt := 86400000 - 1000 * (Int.ofNat i + 1) }

def demoNow : Int := 86400000

def demoStore : List Message := (List.range 120).map demoMessage

/-! ### Further concrete inputs used by counterexamples and witnesses -/

/-- A content string whose trimmed length is 1 but whose raw length is
1001: one letter followed by a thousand spaces. -/
def overlongContent : List Char := 'a' :: List.replicate 1000 ' '

/-- A message with two reactions from different users, the requester's
one first. -/
def reactedMessage : Message :=
  { id := 7
    content := ['h', 'i']
    user := "u1"
    userName := "U1"
    userRole := "user"
    isEdited := false
    editedAt := none
    reactions := [⟨"u1", "up"⟩, ⟨"u2", "wow"⟩]
    replyTo := none
    createdAt := 0 }

/-- A plain message by a non-admin author, created at time 0. -/
def aliceMessage : Message :=
  { id := 3
    content := ['o', 'k']
    user := "alice"
    userName := "Alice"
    userRole := "user"
    isEdited := false
    editedAt := none
    reactions := []
    replyTo := none
    createdAt := 0 }

/-- A registry with one connected identity. -/
def connectedReg : Registry :=
  [("u1", { id := "u1", name := "Alice", role := "user", socketId := "s1" })]

/-- Well-formedness of the `onlineUsers` map: every entry is stored under
its own user id (true of every entry the connection handler inserts). -/
def registryWF (reg : Registry) : Prop := ∀ p ∈ reg, (p.2).id = p.1

/-- Newest-first sortedness, the postcondition of `sort({createdAt: -1})`. -/
def SortedDesc (l : List Message) : Prop :=
  List.Pairwise (fun a b => b.createdAt ≤ a.createdAt) l

/-! ### Shared lemmas -/

theorem insertDesc_perm (m : Message) (l : List Message) :
    (insertDesc m l).Perm (m :: l) := by
  induction l with
  | nil => simp [insertDesc]
  | cons x xs ih =>
    simp only [insertDesc]
    split
    · exact (ih.cons x).trans (List.Perm.swap m x xs)
    · exact List.Perm.refl _

theorem sortByCreatedAtDesc_perm (l : List Message) :
    (sortByCreatedAtDesc l).Perm l := by
  induction l with
  | nil => simp [sortByCreatedAtDesc]
  | cons m ms ih =>
    exact (insertDesc_perm m (sortByCreatedAtDesc ms)).trans (ih.cons m)

theorem mem_insertDesc {b m : Message} {l : List Message} :
    b ∈ insertDesc m l ↔ b = m ∨ b ∈ l := by
  rw [(insertDesc_perm m l).mem_iff, List.mem_cons]

theorem insertDesc_sorted (m : Message) {l : List Message} (h : SortedDesc l) :
    SortedDesc (insertDesc m l) := by
  induction l with
  | nil => simp [insertDesc, SortedDesc]
  | cons x xs ih =>
    rcases (List.pairwise_cons.mp h) with ⟨hx, hxs⟩
    simp only [insertDesc]
    split
    · refine List.pairwise_cons.mpr ⟨?_, ih hxs⟩
      intro b hb
      rcases mem_insertDesc.mp hb with rfl | hb
      · assumption
      · exact hx b hb
    · rename_i hlt
      refine List.pairwise_cons.mpr ⟨?_, h⟩
      intro b hb
      rcases List.mem_cons.mp hb with rfl | hb
      · omega
      · have := hx b hb
        omega

theorem sortByCreatedAtDesc_sorted (l : List Message) :
    SortedDesc (sortByCreatedAtDesc l) := by
  induction l with
  | nil => simp [sortByCreatedAtDesc, SortedDesc]
  | cons m ms ih => exact insertDesc_sorted m ih

theorem mem_listMessages_inWindow {store : List Message} {now : Int}
    {pq lq : Option Int} {m : Message}
    (h : m ∈ (listMessages store now pq lq).messages) :
    inWindow now m = true := by
  simp only [listMessages, List.mem_reverse] at h
  have h1 : m ∈ sortByCreatedAtDesc (store.filter (inWindow now)) :=
    List.drop_subset _ _ (List.take_subset _ _ h)
  have h2 : m ∈ store.filter (inWindow now) :=
    (sortByCreatedAtDesc_perm _).mem_iff.mp h1
  exact (List.mem_filter.mp h2).2

theorem findById_updateById {store : List Message} {mid : Nat} {m m1 : Message}
    (h : findById store mid = some m) (hid : m1.id = mid) :
    findById (updateById store mid m1) mid = some m1 := by
  induction store with
  | nil => simp [findById] at h
  | cons x xs ih =>
    by_cases hx : x.id = mid
    · simp [findById, updateById, hx, hid]
    · have hxb : ¬((fun m => m.id == mid) x = true) := by simp [hx]
      have hupdate : updateById (x :: xs) mid m1 = x :: updateById xs mid m1 := by
        simp [updateById, hx]
      have hfind : findById (x :: xs) mid = findById xs mid := by
        simp only [findById]
        exact List.find?_cons_of_neg _ hxb
      rw [hfind] at h
      rw [hupdate]
      have hstep : findById (x :: updateById xs mid m1) mid = findById (updateById xs mid m1) mid := by
        simp only [findById]
        exact List.find?_cons_of_neg _ hxb
      rw [hstep]
      exact ih h

theorem findById_id {store : List Message} {mid : Nat} {m : Message}
    (h : findById store mid = some m) : m.id = mid := by
  have := List.find?_some h
  simpa using this

theorem matchesReaction_eq {u e : String} {r : Reaction}
    (h : matchesReaction u e r = true) : r = ⟨u, e⟩ := by
  cases r with
  | mk ru re =>
    simp only [matchesReaction, Bool.and_eq_true, beq_iff_eq] at h
    simp [h.1, h.2]

theorem perm_filter_not_append {p : Reaction → Bool} {a : Reaction}
    (ha : ∀ x, p x = true → x = a) :
    ∀ rs : List Reaction, rs.countP p = 1 →
      rs.Perm (rs.filter (fun x => !(p x)) ++ [a]) := by
  intro rs
  induction rs with
  | nil =>
    intro h
    simp only [List.countP_nil] at h
    exact absurd h (by decide)
  | cons b t ih =>
    intro h
    rw [List.countP_cons] at h
    by_cases hb : p b = true
    · have ht : t.countP p = 0 := by
        rw [if_pos hb] at h
        omega
      have hba : b = a := ha b hb
      have hfilter : t.filter (fun x => !(p x)) = t := by
        rw [List.filter_eq_self]
        intro x hx
        have := List.countP_eq_zero.mp ht x hx
        simp [this]
      simp only [List.filter_cons, hb, Bool.not_true, if_false, hfilter]
      rw [hba]
      exact (List.perm_append_singleton a t).symm
    · have hbf : p b = false := by simpa using hb
      have ht : t.countP p = 1 := by
        rw [if_neg (by simp [hbf])] at h
        omega
      simp only [List.filter_cons, hbf, Bool.not_false, if_true, List.cons_append]
      exact (ih ht).cons b

theorem toggledReactions_twice {u e : String} {rs : List Reaction}
    (hc : rs.countP (matchesReaction u e) ≤ 1) :
    (toggledReactions u e (toggledReactions u e rs)).Perm rs := by
  by_cases h : rs.any (matchesReaction u e) = true
  · have hcount : rs.countP (matchesReaction u e) = 1 := by
      rcases List.any_eq_true.mp h with ⟨x, hx, hpx⟩
      have : 0 < rs.countP (matchesReaction u e) :=
        List.countP_pos_iff.mpr ⟨x, hx, hpx⟩
      omega
    have hfilterany :
        (rs.filter (fun r => !(matchesReaction u e r))).any (matchesReaction u e) = false := by
      rw [Bool.eq_false_iff]
      intro hany
      rcases List.any_eq_true.mp hany with ⟨x, hx, hpx⟩
      have := (List.mem_filter.mp hx).2
      simp [hpx] at this
    have e1 : toggledReactions u e rs = rs.filter (fun r => !(matchesReaction u e r)) := by
      unfold toggledReactions
      rw [if_pos h]
    have e2 : toggledReactions u e (rs.filter (fun r => !(matchesReaction u e r)))
        = rs.filter (fun r => !(matchesReaction u e r)) ++ [⟨u, e⟩] := by
      unfold toggledReactions
      rw [if_neg (by simp [hfilterany])]
    rw [e1, e2]
    exact (perm_filter_not_append (fun x => matchesReaction_eq) rs hcount).symm
  · have hbf : rs.any (matchesReaction u e) = false := by simpa using h
    have hself : matchesReaction u e ⟨u, e⟩ = true := by simp [matchesReaction]
    have happ : (rs ++ [(⟨u, e⟩ : Reaction)]).any (matchesReaction u e) = true :=
      List.any_eq_true.mpr ⟨⟨u, e⟩, by simp, hself⟩
    have hfilter : rs.filter (fun r => !(matchesReaction u e r)) = rs := by
      rw [List.filter_eq_self]
      intro x hx
      have := List.any_eq_false.mp hbf x hx
      simp [this]
    have e1 : toggledReactions u e rs = rs ++ [⟨u, e⟩] := by
      unfold toggledReactions
      rw [if_neg (by simp [hbf])]
    have e2 : toggledReactions u e (rs ++ [⟨u, e⟩]) = rs := by
      unfold toggledReactions
      rw [if_pos happ, List.filter_append, hfilter]
      simp [hself]
    rw [e1, e2]

theorem mathCeilDiv_bounds {a b : Int} (hb : 0 < b) :
    a ≤ b * mathCeilDiv a b ∧ b * mathCeilDiv a b < a + b := by
  have hfd : (-a).fdiv b = (-a) / b := Int.fdiv_eq_ediv _ (le_of_lt hb)
  have h1 : b * ((-a) / b) + (-a) % b = -a := Int.ediv_add_emod (-a) b
  have h2 : 0 ≤ (-a) % b := Int.emod_nonneg (-a) (by omega)
  have h3 : (-a) % b < b := Int.emod_lt_of_pos (-a) hb
  unfold mathCeilDiv
  rw [hfd, mul_neg]
  constructor <;> omega

theorem mapSet_wf {reg : Registry} {k : String} {v : PresenceEntry}
    (hwf : registryWF reg) (hv : v.id = k) : registryWF (mapSet k v reg) := by
  induction reg with
  | nil =>
    intro p hp
    simp only [mapSet, List.mem_singleton] at hp
    simp [hp, hv]
  | cons q rest ih =>
    obtain ⟨k0, v0⟩ := q
    intro p hp
    simp only [mapSet] at hp
    split at hp
    · rcases List.mem_cons.mp hp with hpe | hp
      · rw [hpe]; exact hv
      · exact hwf p (List.mem_cons_of_mem _ hp)
    · rcases List.mem_cons.mp hp with hpe | hp
      · rw [hpe]; exact hwf (k0, v0) (List.mem_cons_self _ _)
      · exact ih (fun t ht => hwf t (List.mem_cons_of_mem _ ht)) p hp

theorem mapGet_mapDelete (k : String) (reg : Registry) :
    mapGet k (mapDelete k reg) = none := by
  have hfind : (mapDelete k reg).find? (fun p => p.1 == k) = none := by
    apply List.find?_eq_none.mpr
    intro q hq
    have hne : q.1 ≠ k := by simpa using (List.mem_filter.mp hq).2
    simp [hne]
  simp [mapGet, hfind]

/-! ### Claims -/

/-- Helper: valid (non-blank) content falsifies the first guard of the
send/edit handlers. -/
theorem content_ok_cond {content : List Char} (hc1 : 1 ≤ (jsTrim content).length) :
    (content.isEmpty || ((jsTrim content).length == 0)) = false := by
  have h0 : (jsTrim content).length ≠ 0 := by omega
  have hce : content.isEmpty = false := by
    cases content with
    | nil => exact absurd hc1 (by decide)
    | cons c cs => rfl
  simp [hce, h0]

/-- C1, amended: for every content string, `sendMessage` (no reply)
succeeds with status 201 iff the trimmed length is at least 1 and the
raw, untrimmed length is at most 1000; in every other case it answers
status 400.  (The handler checks `content.length > 1000` before
trimming, so the bound is on the raw length, not the trimmed length as
the original claim stated.) -/
theorem sendMessage_validation (store : List Message) (u n r : String)
    (now : Int) (newId : Nat) (content : List Char) :
    ((sendMessage store u n r now newId content none).isOk
       = (decide (1 ≤ (jsTrim content).length) && decide (content.length ≤ 1000)))
  ∧ ((sendMessage store u n r now newId content none).statusOf
       = if 1 ≤ (jsTrim content).length ∧ content.length ≤ 1000 then 201 else 400) := by
  by_cases h0 : (jsTrim content).length = 0
  · have hcond : (content.isEmpty || ((jsTrim content).length == 0)) = true := by
      simp [h0]
    unfold sendMessage
    rw [if_pos hcond]
    constructor
    · simp [HttpResult.isOk, h0]
    · simp [HttpResult.statusOf, h0]
  · have h1 : 1 ≤ (jsTrim content).length := by omega
    unfold sendMessage
    rw [if_neg (by simp [content_ok_cond h1])]
    by_cases h2 : content.length ≤ 1000
    · rw [if_neg (by omega)]
      constructor
      · simp [HttpResult.isOk, h1, h2]
      · simp [HttpResult.statusOf, h1, h2]
    · rw [if_pos (by omega)]
      constructor
      · simp [HttpResult.isOk, h2]
      · simp [HttpResult.statusOf, h2]

/-- C1, counterexample to the claim as stated: `overlongContent` has
trimmed length 1 (inside [1,1000]) yet `sendMessage` rejects it, because
its raw length is 1001. -/
theorem sendMessage_trim_only_claim_false :
    (1 ≤ (jsTrim overlongContent).length ∧ (jsTrim overlongContent).length ≤ 1000)
  ∧ (sendMessage [] "u1" "Alice" "user" 0 0 overlongContent none).isOk = false := by
  decide

/-- C2, amended: a `sendMessage` with valid content whose `replyTo` does
not resolve fails with HTTP status 400 ("Reply-to message not found"),
not with the 404 of a NotFoundError as the claim stated. -/
theorem sendMessage_replyTo_missing (store : List Message) (u n r : String)
    (now : Int) (newId : Nat) (content : List Char) (parentId : Nat)
    (hc1 : 1 ≤ (jsTrim content).length) (hc2 : content.length ≤ 1000)
    (habs : findById store parentId = none) :
    sendMessage store u n r now newId content (some parentId)
      = .err 400 "Reply-to message not found" := by
  unfold sendMessage
  rw [if_neg (by simp [content_ok_cond hc1])]
  rw [if_neg (by omega)]
  simp [habs]

/-- C2, witness: the amended theorem applied to a dangling `replyTo` on
an empty store. -/
theorem sendMessage_replyTo_missing_witness :
    (1 ≤ (jsTrim ['h', 'i']).length)
  ∧ (['h', 'i'].length ≤ 1000)
  ∧ (findById [] 5 = none)
  ∧ (sendMessage [] "u1" "Alice" "user" 0 0 ['h', 'i'] (some 5)
       = .err 400 "Reply-to message not found") :=
  ⟨by decide, by decide, rfl,
    sendMessage_replyTo_missing [] "u1" "Alice" "user" 0 0 ['h', 'i'] 5
      (by decide) (by decide) rfl⟩

/-- C2, counterexample to the claim as stated: the failure status for a
dangling `replyTo` is 400, not 404. -/
theorem sendMessage_replyTo_status_not_404 :
    (sendMessage [] "u1" "Alice" "user" 0 0 ['h', 'i'] (some 5)).statusOf = 400
  ∧ (sendMessage [] "u1" "Alice" "user" 0 0 ['h', 'i'] (some 5)).statusOf ≠ 404 := by
  decide

/-- C3: every message returned by `listMessages` has `createdAt` within
the last 24 hours, for every page/limit choice, and `totalMessages`
counts exactly the messages inside that window. -/
theorem listMessages_window_only (store : List Message) (now : Int)
    (pq lq : Option Int) (m : Message)
    (hm : m ∈ (listMessages store now pq lq).messages) :
    now - dayMs ≤ m.createdAt
  ∧ (listMessages store now pq lq).pagination.totalMessages
      = (store.filter (inWindow now)).length := by
  refine ⟨?_, rfl⟩
  have := mem_listMessages_inWindow hm
  simpa [inWindow] using this

/-- C3, witness: a fresh message on a one-message store is listed and in
the window. -/
theorem listMessages_window_only_witness :
    (aliceMessage ∈ (listMessages [aliceMessage] 0 none none).messages)
  ∧ (0 - dayMs ≤ aliceMessage.createdAt
     ∧ (listMessages [aliceMessage] 0 none none).pagination.totalMessages
         = ([aliceMessage].filter (inWindow 0)).length) :=
  ⟨by decide, listMessages_window_only [aliceMessage] 0 none none aliceMessage (by decide)⟩

/-- C4: for every valid page and pageSize, `listMessages` slices the
newest-first sorted window by `skip = (page-1)*pageSize` and `limit`,
returns the slice reversed to oldest-first, and reports `currentPage`,
`totalPages` (the ceiling of `totalMessages / pageSize`, pinned down by
the two bound conjuncts), `hasNext = page < totalPages` and
`hasPrev = page > 1`; the sort is a permutation of the window, sorted
newest-first.  Concretely, with the 120-message demo window and
pageSize 50, page 1 is the 50 newest messages in oldest-first order
(ids 49 down to 0, larger id = older) with hasNext and not hasPrev, and
page 3 is the remaining 20 (ids 119 down to 100) with hasPrev and not
hasNext. -/
theorem listMessages_pagination_spec (store : List Message) (now page limit : Int)
    (hp : 1 ≤ page) (hl : 1 ≤ limit) :
    ((listMessages store now (some page) (some limit)).messages
       = (((sortByCreatedAtDesc (store.filter (inWindow now))).drop
             ((page - 1) * limit).toNat).take limit.toNat).reverse)
  ∧ (sortByCreatedAtDesc (store.filter (inWindow now))).Perm (store.filter (inWindow now))
  ∧ SortedDesc (sortByCreatedAtDesc (store.filter (inWindow now)))
  ∧ ((listMessages store now (some page) (some limit)).pagination
       = { currentPage := page
           totalPages := mathCeilDiv (Int.ofNat (store.filter (inWindow now)).length) limit
           totalMessages := (store.filter (inWindow now)).length
           hasNext := decide
             (page < mathCeilDiv (Int.ofNat (store.filter (inWindow now)).length) limit)
           hasPrev := decide (1 < page) })
  ∧ (Int.ofNat (store.filter (inWindow now)).length
       ≤ limit * mathCeilDiv (Int.ofNat (store.filter (inWindow now)).length) limit)
  ∧ (limit * mathCeilDiv (Int.ofNat (store.filter (inWindow now)).length) limit
       < Int.ofNat (store.filter (inWindow now)).length + limit)
  ∧ ((listMessages demoStore demoNow (some 1) (some 50)).messages.map (fun m => m.id)
       = (List.range 50).reverse)
  ∧ ((listMessages demoStore demoNow (some 1) (some 50)).pagination.hasNext = true)
  ∧ ((listMessages demoStore demoNow (some 1) (some 50)).pagination.hasPrev = false)
  ∧ ((listMessages demoStore demoNow (some 1) (some 50)).pagination.totalMessages = 120)
  ∧ ((listMessages demoStore demoNow (some 1) (some 50)).pagination.totalPages = 3)
  ∧ ((listMessages demoStore demoNow (some 3) (some 50)).messages.map (fun m => m.id)
       = ((List.range 20).map (fun i => 100 + i)).reverse)
  ∧ ((listMessages demoStore demoNow (some 3) (some 50)).pagination.hasNext = false)
  ∧ ((listMessages demoStore demoNow (some 3) (some 50)).pagination.hasPrev = true) := by
  have hp0 : page ≠ 0 := by omega
  have hl0 : limit ≠ 0 := by omega
  have hpage : jsOrDefault 1 (some page) = page := by simp [jsOrDefault, hp0]
  have hlimit : jsOrDefault 50 (some limit) = limit := by simp [jsOrDefault, hl0]
  refine ⟨?_, sortByCreatedAtDesc_perm _, sortByCreatedAtDesc_sorted _, ?_,
    (mathCeilDiv_bounds (by omega)).1, (mathCeilDiv_bounds (by omega)).2,
    by decide, by decide, by decide, by decide, by decide, by decide, by decide, by decide⟩
  · simp [listMessages, hpage, hlimit]
  · simp [listMessages, hpage, hlimit]

/-- C8, amended: an absent or non-numeric page/pageSize (which
`parseInt` turns into the falsy `NaN`) and the falsy value 0 make the
route behave exactly as with page 1 / pageSize 50; a negative page is
not defaulted: with pageSize 50 (supplied or defaulted) it makes the
`skip` sent to the store negative, the store rejects the query, and the
route answers 500 "Server error" instead of the page-1 response. -/
theorem listMessages_defaults (store : List Message) (now : Int)
    (pq lq : Option Int) :
    (listMessagesRoute store now none lq = listMessagesRoute store now (some 1) lq)
  ∧ (listMessagesRoute store now (some 0) lq = listMessagesRoute store now (some 1) lq)
  ∧ (listMessagesRoute store now pq none = listMessagesRoute store now pq (some 50))
  ∧ (listMessagesRoute store now pq (some 0) = listMessagesRoute store now pq (some 50))
  ∧ (listMessagesRoute store now (some (-5)) none = .err 500 "Server error")
  ∧ (listMessagesRoute store now (some (-5)) (some 50) = .err 500 "Server error") :=
  ⟨rfl, rfl, rfl, rfl, rfl, rfl⟩

/-- C8, counterexample to the claim as stated: the invalid page value
-5 does not behave as the default page 1 - its negative skip makes the
store query fail, so the route answers 500 "Server error", while page 1
answers a success response. -/
theorem listMessages_negative_page_not_default :
    (listMessagesRoute [] 0 (some (-5)) (some 50) = .err 500 "Server error")
  ∧ ((listMessagesRoute [] 0 (some 1) (some 50)).isOk = true)
  ∧ (listMessagesRoute [] 0 (some (-5)) (some 50)
       ≠ listMessagesRoute [] 0 (some 1) (some 50)) := by
  decide

/-- Helper: on a non-empty emoji and a found message, the reactions
route saves the toggled reaction list. -/
theorem toggleReaction_found {store : List Message} {u : String} {mid : Nat}
    {e : String} {m : Message} (he : (e == "") = false)
    (hm : findById store mid = some m) :
    toggleReaction store u mid e
      = .ok 200
          (updateById store mid { m with reactions := toggledReactions u e m.reactions },
           { m with reactions := toggledReactions u e m.reactions }) := by
  unfold toggleReaction
  rw [if_neg (by simp [he]), hm]

/-- C5, amended: applying `toggleReaction` twice with the same user and
emoji restores the message's reaction list only up to order (a
permutation), assuming the user had at most one such reaction: a
toggled-off reaction is re-appended at the end of the list, not at its
original position. -/
theorem toggleReaction_twice_perm (store st1 st2 : List Message)
    (u : String) (mid : Nat) (e : String) (m m1 m2 : Message)
    (hm : findById store mid = some m)
    (h1 : toggleReaction store u mid e = .ok 200 (st1, m1))
    (h2 : toggleReaction st1 u mid e = .ok 200 (st2, m2))
    (hc : m.reactions.countP (matchesReaction u e) ≤ 1) :
    m2.reactions.Perm m.reactions := by
  by_cases he : (e == "") = true
  · rw [toggleReaction, if_pos he] at h1
    exact absurd h1 (by simp)
  · have heb : (e == "") = false := by simpa using he
    rw [toggleReaction_found heb hm] at h1
    simp only [HttpResult.ok.injEq, Prod.mk.injEq, true_and] at h1
    obtain ⟨hst1, hm1⟩ := h1
    have hmid : m1.id = mid := by
      have hid1 : m1.id = m.id := by rw [← hm1]
      rw [hid1]
      exact findById_id hm
    have hfind1 : findById st1 mid = some m1 := by
      rw [← hst1, hm1]
      exact findById_updateById hm hmid
    rw [toggleReaction_found heb hfind1] at h2
    simp only [HttpResult.ok.injEq, Prod.mk.injEq, true_and] at h2
    obtain ⟨hst2, hm2⟩ := h2
    rw [← hm2, ← hm1]
    show (toggledReactions u e (toggledReactions u e m.reactions)).Perm m.reactions
    exact toggledReactions_twice hc

/-- C5, witness: the double toggle on the two-reaction demo message. -/
theorem toggleReaction_twice_perm_witness :
    (findById [reactedMessage] 7 = some reactedMessage)
  ∧ (toggleReaction [reactedMessage] "u1" 7 "up"
       = .ok 200 ([{ reactedMessage with reactions := [⟨"u2", "wow"⟩] }],
                  { reactedMessage with reactions := [⟨"u2", "wow"⟩] }))
  ∧ (toggleReaction [{ reactedMessage with reactions := [⟨"u2", "wow"⟩] }] "u1" 7 "up"
       = .ok 200 ([{ reactedMessage with reactions := [⟨"u2", "wow"⟩, ⟨"u1", "up"⟩] }],
                  { reactedMessage with reactions := [⟨"u2", "wow"⟩, ⟨"u1", "up"⟩] }))
  ∧ (reactedMessage.reactions.countP (matchesReaction "u1" "up") ≤ 1)
  ∧ ({ reactedMessage with
        reactions := [⟨"u2", "wow"⟩, ⟨"u1", "up"⟩] }.reactions.Perm reactedMessage.reactions) :=
  ⟨rfl, by decide, by decide, by decide,
    toggleReaction_twice_perm [reactedMessage]
      [{ reactedMessage with reactions := [⟨"u2", "wow"⟩] }]
      [{ reactedMessage with reactions := [⟨"u2", "wow"⟩, ⟨"u1", "up"⟩] }]
      "u1" 7 "up" reactedMessage
      { reactedMessage with reactions := [⟨"u2", "wow"⟩] }
      { reactedMessage with reactions := [⟨"u2", "wow"⟩, ⟨"u1", "up"⟩] }
      rfl (by decide) (by decide) (by decide)⟩

/-- C5, counterexample to the claim as stated: toggling "u1"/"up" twice
on the demo message moves that reaction from the head to the tail of the
list, so the resulting sequence differs from the original. -/
theorem toggleReaction_twice_seq_false :
    (toggleReaction [reactedMessage] "u1" 7 "up"
       = .ok 200 ([{ reactedMessage with reactions := [⟨"u2", "wow"⟩] }],
                  { reactedMessage with reactions := [⟨"u2", "wow"⟩] }))
  ∧ (toggleReaction [{ reactedMessage with reactions := [⟨"u2", "wow"⟩] }] "u1" 7 "up"
       = .ok 200 ([{ reactedMessage with reactions := [⟨"u2", "wow"⟩, ⟨"u1", "up"⟩] }],
                  { reactedMessage with reactions := [⟨"u2", "wow"⟩, ⟨"u1", "up"⟩] }))
  ∧ ([(⟨"u2", "wow"⟩ : Reaction), ⟨"u1", "up"⟩] ≠ reactedMessage.reactions) := by
  decide

/-- Helper: on valid content and a found message, the edit handler
reduces to the ownership and time-window checks. -/
theorem editMessage_found {store : List Message} {u role : String} {now : Int}
    {mid : Nat} {content : List Char} {m : Message}
    (hc1 : 1 ≤ (jsTrim content).length) (hc2 : content.length ≤ 1000)
    (hm : findById store mid = some m) :
    editMessage store u role now mid content
      = (if m.user ≠ u ∧ role ≠ "admin" then
           .err 403 "Not authorized to edit this message"
         else if m.createdAt < now - quarterHourMs ∧ role ≠ "admin" then
           .err 403 "Cannot edit messages older than 15 minutes"
         else
           .ok 200
             (updateById store mid
               { m with content := jsTrim content, isEdited := true, editedAt := some now },
              { m with content := jsTrim content, isEdited := true, editedAt := some now })) := by
  unfold editMessage
  rw [if_neg (by simp [content_ok_cond hc1]), if_neg (by omega), hm]

/-- C6: for an edit of an existing message by its author with valid
content, the request succeeds exactly when the requester is an admin or
at most 15 minutes have elapsed since `createdAt` (so in particular it
succeeds strictly inside the window and fails with 403 strictly outside
it), and an admin is never subject to the window. -/
theorem editMessage_time_window (store : List Message) (u role : String)
    (now : Int) (mid : Nat) (content : List Char) (m : Message)
    (hm : findById store mid = some m) (hauthor : m.user = u)
    (hc1 : 1 ≤ (jsTrim content).length) (hc2 : content.length ≤ 1000) :
    ((editMessage store u role now mid content).isOk
       = (decide (role = "admin") || decide (now - quarterHourMs ≤ m.createdAt)))
  ∧ ((editMessage store u role now mid content).statusOf
       = if role = "admin" ∨ now - quarterHourMs ≤ m.createdAt then 200 else 403) := by
  rw [editMessage_found hc1 hc2 hm]
  rw [if_neg (fun h => h.1 hauthor)]
  by_cases hrole : role = "admin"
  · rw [if_neg (fun h => h.2 hrole)]
    constructor
    · simp [HttpResult.isOk, hrole]
    · simp [HttpResult.statusOf, hrole]
  · by_cases htime : m.createdAt < now - quarterHourMs
    · have hnot : ¬(now - quarterHourMs ≤ m.createdAt) := by omega
      rw [if_pos ⟨htime, hrole⟩]
      constructor
      · simp [HttpResult.isOk, hrole, hnot]
      · simp [HttpResult.statusOf, hrole, hnot]
    · have hle : now - quarterHourMs ≤ m.createdAt := by omega
      rw [if_neg (fun h => htime h.1)]
      constructor
      · simp [HttpResult.isOk, hle]
      · simp [HttpResult.statusOf, hle]

/-- C6, witness: the author edits 14 min 59 s after creation. -/
theorem editMessage_time_window_witness :
    (findById [aliceMessage] 3 = some aliceMessage)
  ∧ (aliceMessage.user = "alice")
  ∧ (1 ≤ (jsTrim ['h', 'i']).length)
  ∧ (['h', 'i'].length ≤ 1000)
  ∧ (((editMessage [aliceMessage] "alice" "user" 899000 3 ['h', 'i']).isOk
       = (decide (("user" : String) = "admin")
           || decide ((899000 : Int) - quarterHourMs ≤ aliceMessage.createdAt)))
     ∧ ((editMessage [aliceMessage] "alice" "user" 899000 3 ['h', 'i']).statusOf
       = if ("user" : String) = "admin" ∨ (899000 : Int) - quarterHourMs ≤ aliceMessage.createdAt
         then 200 else 403)) :=
  ⟨rfl, rfl, by decide, by decide,
    editMessage_time_window [aliceMessage] "alice" "user" 899000 3 ['h', 'i'] aliceMessage
      rfl rfl (by decide) (by decide)⟩

/-- C7, amended: an edit with valid content whose message id does not
resolve fails with 404 for every requester; invalid content is rejected
with 400 before the existence check, so the original "every content
argument" does not hold. -/
theorem editMessage_absent (store : List Message) (u role : String) (now : Int)
    (mid : Nat) (content : List Char)
    (hc1 : 1 ≤ (jsTrim content).length) (hc2 : content.length ≤ 1000)
    (habs : findById store mid = none) :
    editMessage store u role now mid content = .err 404 "Message not found" := by
  unfold editMessage
  rw [if_neg (by simp [content_ok_cond hc1]), if_neg (by omega), habs]

/-- C7, witness: editing a missing message with valid content gives
404. -/
theorem editMessage_absent_witness :
    (1 ≤ (jsTrim ['h', 'i']).length)
  ∧ (['h', 'i'].length ≤ 1000)
  ∧ (findById [] 1 = none)
  ∧ (editMessage [] "u1" "user" 0 1 ['h', 'i'] = .err 404 "Message not found") :=
  ⟨by decide, by decide, rfl,
    editMessage_absent [] "u1" "user" 0 1 ['h', 'i'] (by decide) (by decide) rfl⟩

/-- C7, counterexample to the claim as stated: with empty (or over-long)
content and an absent message the handler answers 400, not 404. -/
theorem editMessage_invalid_content_absent :
    (findById [] 1 = none)
  ∧ (editMessage [] "u1" "user" 0 1 [] = .err 400 "Message content is required")
  ∧ (editMessage [] "u1" "user" 0 1 (List.replicate 1001 'a')
       = .err 400 "Message too long (max 1000 characters)")
  ∧ ((editMessage [] "u1" "user" 0 1 []).statusOf ≠ 404) := by
  decide

/-- C9, amended: `GET /online-users` answers the constant empty summary
(count 0, no users) whatever the presence registry holds - the route is
a placeholder that ignores the registry. -/
theorem onlineUsersRoute_placeholder (reg : Registry) :
    onlineUsersRoute reg = { count := 0, users := [] } := rfl

/-- C9, counterexample to the claim as stated: with one connected
identity the route still reports 0 users, differing from the presence
snapshot. -/
theorem onlineUsersRoute_ignores_presence :
    ((onlineUsersRoute connectedReg).count = 0)
  ∧ ((presenceSnapshot connectedReg).count = 1)
  ∧ (onlineUsersRoute connectedReg ≠ presenceSnapshot connectedReg) := by
  decide

/-- C10: if an identity connects twice (two distinct connections) and
the first, superseded connection then disconnects, the identity's single
registry entry is removed, so the identity is absent from the next
presence broadcast although its second connection never disconnected. -/
theorem presence_superseded_disconnect (reg : Registry)
    (u n1 r1 c1 n2 r2 c2 : String) (hwf : registryWF reg) (hne : c1 ≠ c2) :
    (mapGet u (runEvents reg
       [.connected u n1 r1 c1, .connected u n2 r2 c2, .disconnected u]) = none)
  ∧ ((presenceSnapshot (runEvents reg
       [.connected u n1 r1 c1, .connected u n2 r2 c2, .disconnected u])).users.all
         (fun ou => !(ou.id == u)) = true) := by
  have hreg2wf : registryWF
      (mapSet u ⟨u, n2, r2, c2⟩ (mapSet u ⟨u, n1, r1, c1⟩ reg)) :=
    mapSet_wf (mapSet_wf hwf rfl) rfl
  have hrun : runEvents reg
      [.connected u n1 r1 c1, .connected u n2 r2 c2, .disconnected u]
      = mapDelete u (mapSet u ⟨u, n2, r2, c2⟩ (mapSet u ⟨u, n1, r1, c1⟩ reg)) := rfl
  constructor
  · rw [hrun]
    exact mapGet_mapDelete u _
  · rw [hrun]
    apply List.all_eq_true.mpr
    intro ou hou
    simp only [presenceSnapshot, List.mem_map] at hou
    obtain ⟨p, hp, hou⟩ := hou
    have hmem := List.mem_filter.mp hp
    have hkey : p.1 ≠ u := by simpa using hmem.2
    have hid : p.2.id = p.1 := hreg2wf p hmem.1
    rw [← hou]
    simp [hid, hkey]

/-- C10, witness: the three-event trace from the empty registry. -/
theorem presence_superseded_disconnect_witness :
    registryWF ([] : Registry)
  ∧ (("s1" : String) ≠ "s2")
  ∧ ((mapGet "u1" (runEvents []
       [.connected "u1" "Alice" "user" "s1", .connected "u1" "Alice" "user" "s2",
        .disconnected "u1"]) = none)
     ∧ ((presenceSnapshot (runEvents []
       [.connected "u1" "Alice" "user" "s1", .connected "u1" "Alice" "user" "s2",
        .disconnected "u1"])).users.all (fun ou => !(ou.id == "u1")) = true)) :=
  ⟨fun p hp => absurd hp (List.not_mem_nil p), by decide,
    presence_superseded_disconnect [] "u1" "Alice" "user" "s1" "Alice" "user" "s2"
      (fun p hp => absurd hp (List.not_mem_nil p)) (by decide)⟩

/-- C4, witness: the pagination theorem applied at page 1, pageSize 50
on an empty store. -/
theorem listMessages_pagination_spec_witness :
    ((1 : Int) ≤ 1)
  ∧ ((1 : Int) ≤ 50)
  ∧ (((listMessages [] 0 (some 1) (some 50)).messages
       = (((sortByCreatedAtDesc (([] : List Message).filter (inWindow 0))).drop
             (((1 : Int) - 1) * 50).toNat).take (50 : Int).toNat).reverse)
  ∧ (sortByCreatedAtDesc (([] : List Message).filter (inWindow 0))).Perm
      (([] : List Message).filter (inWindow 0))
  ∧ SortedDesc (sortByCreatedAtDesc (([] : List Message).filter (inWindow 0)))
  ∧ ((listMessages [] 0 (some 1) (some 50)).pagination
       = { currentPage := 1
           totalPages := mathCeilDiv
             (Int.ofNat (([] : List Message).filter (inWindow 0)).length) 50
           totalMessages := (([] : List Message).filter (inWindow 0)).length
           hasNext := decide
             ((1 : Int) < mathCeilDiv
               (Int.ofNat (([] : List Message).filter (inWindow 0)).length) 50)
           hasPrev := decide ((1 : Int) < 1) })
  ∧ (Int.ofNat (([] : List Message).filter (inWindow 0)).length
       ≤ 50 * mathCeilDiv (Int.ofNat (([] : List Message).filter (inWindow 0)).length) 50)
  ∧ (50 * mathCeilDiv (Int.ofNat (([] : List Message).filter (inWindow 0)).length) 50
       < Int.ofNat (([] : List Message).filter (inWindow 0)).length + 50)
  ∧ ((listMessages demoStore demoNow (some 1) (some 50)).messages.map (fun m => m.id)
       = (List.range 50).reverse)
  ∧ ((listMessages demoStore demoNow (some 1) (some 50)).pagination.hasNext = true)
  ∧ ((listMessages demoStore demoNow (some 1) (some 50)).pagination.hasPrev = false)
  ∧ ((listMessages demoStore demoNow (some 1) (some 50)).pagination.totalMessages = 120)
  ∧ ((listMessages demoStore demoNow (some 1) (some 50)).pagination.totalPages = 3)
  ∧ ((listMessages demoStore demoNow (some 3) (some 50)).messages.map (fun m => m.id)
       = ((List.range 20).map (fun i => 100 + i)).reverse)
  ∧ ((listMessages demoStore demoNow (some 3) (some 50)).pagination.hasNext = false)
  ∧ ((listMessages demoStore demoNow (some 3) (some 50)).pagination.hasPrev = true)) :=
  ⟨le_refl 1, by norm_num,
    listMessages_pagination_spec [] 0 1 50 (le_refl 1) (by norm_num)⟩

end StudyBackend
